import Mathlib

/-!
# CommCoach desktop runner: window shell and application shell

A shallow embedding of

* `frontend/windows/runner/win32_window.{h,cpp}` (the Win32 window shell), and
* `backend/frontend/linux/my_application.cc` (the GTK application shell).

The operating system is an explicit oracle (`OS`): every value the code reads
back from an OS call is a field of it.  Every OS call the code issues is
recorded, in program order, in a list of `OsCall`.
-/

namespace CommCoach

/-! ## Win32 data model -/

/-- Window handle; the null handle is `0`. -/
abbrev HWND := Nat

/-- Monitor handle. -/
abbrev HMONITOR := Nat

/-- Message kind. -/
abbrev UINT := Nat

/-- First message parameter. -/
abbrev WPARAM := Nat

/-- Second message parameter. -/
abbrev LPARAM := Int

/-- Result of a window procedure. -/
abbrev LRESULT := Int

/-- The null handle. -/
def nullptr : HWND := 0

/-- Windows SDK value of `WM_DESTROY`. -/
def WM_DESTROY : UINT := 0x0002

/-- Windows SDK value of `WM_SIZE`. -/
def WM_SIZE : UINT := 0x0005

/-- Windows SDK value of `WM_ACTIVATE`. -/
def WM_ACTIVATE : UINT := 0x0006

/-- Windows SDK value of `WM_SETFOCUS`. -/
def WM_SETFOCUS : UINT := 0x0007

/-- Windows SDK value of `WM_DPICHANGED`. -/
def WM_DPICHANGED : UINT := 0x02E0

/-- Windows SDK value of `SWP_NOZORDER`. -/
def SWP_NOZORDER : Nat := 0x0004

/-- Windows SDK value of `SWP_NOACTIVATE`. -/
def SWP_NOACTIVATE : Nat := 0x0010

/-- The Win32 `RECT`: four `LONG` fields. -/
structure RECT where
  left : Int
  top : Int
  right : Int
  bottom : Int
deriving DecidableEq, Repr

/-- The struct `Win32Window::Point`: two `unsigned int` fields. -/
structure Point where
  x : Nat
  y : Nat
deriving DecidableEq, Repr

/-- The struct `Win32Window::Size`: two `unsigned int` fields. -/
structure Size where
  width : Nat
  height : Nat
deriving DecidableEq, Repr

/-- Conversion of an integer value to a 32-bit signed type (`int`, `LONG`):
reduction modulo `2^32` into `[-2^31, 2^31)`.  It is the identity on values that
fit. -/
def toInt32 (v : Int) : Int := (v + 2 ^ 31) % 2 ^ 32 - 2 ^ 31

/-- A value fits in a signed 32-bit integer. -/
def fitsInt32 (v : Int) : Prop := -(2 : Int) ^ 31 ≤ v ∧ v < (2 : Int) ^ 31

instance (v : Int) : Decidable (fitsInt32 v) := by
  unfold fitsInt32; infer_instance

/-- Rounding of a rational to the nearest integer, a tie going to the even
neighbour. -/
def roundHalfEven (m : ℚ) : Int :=
  if m - ⌊m⌋ < 1 / 2 then ⌊m⌋
  else if 1 / 2 < m - ⌊m⌋ then ⌊m⌋ + 1
  else if ⌊m⌋ % 2 = 0 then ⌊m⌋ else ⌊m⌋ + 1

/-- The binary exponent of the last of the 53 significant bits that a `double`
keeps of a non-zero value `q`: `2 ^ (e + 52) ≤ |q| < 2 ^ (e + 53)`. -/
def ulpExponent (q : ℚ) : Int := Int.log 2 |q| - 52

/-- The `double` nearest to a rational: IEEE 754 binary64, round to nearest,
ties to even.  A `double` is modelled as the rational number it denotes, and
every arithmetic operation on `double`s is the exact operation followed by
this rounding.  The exponent range is not modelled: the values that occur here
(32-bit integers, percentages divided by one hundred, and their products) are
far from overflow and underflow. -/
def toDouble (q : ℚ) : ℚ :=
  if q = 0 then 0 else (roundHalfEven (q / 2 ^ ulpExponent q) : ℚ) * 2 ^ ulpExponent q

/-- The conversion `static_cast<int>` of a `double`: the fractional part is
discarded (truncation toward zero).  When the truncated value is not an `int`
the conversion is undefined in C++; the model then yields `INT_MIN`, the value
the x86 conversion instruction produces. -/
def static_cast_int (d : ℚ) : Int :=
  if fitsInt32 (Int.tdiv d.num d.den) then Int.tdiv d.num d.den else -2 ^ 31

/-- The type `GetScaleFactorForMonitorPtr`: the Shcore entry point, which
yields `none` on a failed `HRESULT` and the `DEVICE_SCALE_FACTOR` (a
percentage) on success. -/
abbrev GetScaleFactorForMonitorPtr := HMONITOR → Option Int

/-- What the operating system answers to the calls of the window shell. -/
structure OS where
  /-- The call `RegisterClass`: the class atom, `0` on failure. -/
  RegisterClass : Nat
  /-- The call `MonitorFromPoint`. -/
  MonitorFromPoint : Int → Int → HMONITOR
  /-- The function-local static `get_scale_factor_for_monitor_func` of
  `GetDpiScaleForMonitor`, as it is when the function is entered: `none` is the
  null pointer, `some` the entry point cached by an earlier call. -/
  get_scale_factor_for_monitor_func : Option GetScaleFactorForMonitorPtr
  /-- The calls `GetModuleHandleA("shcore")` and `GetProcAddress`: `none` when
  the module is not loaded, otherwise the result of `GetProcAddress` for
  `GetScaleFactorForMonitor` (`none` is the null pointer). -/
  shcore : Option (Option GetScaleFactorForMonitorPtr)
  /-- The call `CreateWindow`: the new handle, `nullptr` on failure. -/
  CreateWindow : HWND
  /-- The call `GetClientRect`: the rectangle left in the out-parameter. -/
  GetClientRect : HWND → RECT
  /-- The `RECT` that an `LPARAM` points to. -/
  rectAt : LPARAM → RECT
  /-- The call `DefWindowProc`. -/
  DefWindowProc : HWND → UINT → WPARAM → LPARAM → LRESULT

/-- An OS call issued by the window shell, with its arguments. -/
inductive OsCall where
  | RegisterClass
  | MonitorFromPoint (x y : Int)
  | CreateWindow (title : String) (x y width height : Int) (parent : HWND)
  | DestroyWindow (window : HWND)
  | SetParent (child parent : HWND)
  | GetClientRect (window : HWND)
  | SetWindowPos (window : HWND) (x y cx cy : Int) (flags : Nat)
  | SetFocus (window : HWND)
  | PostQuitMessage (code : Int)
  | DefWindowProc (window : HWND) (message : UINT) (wparam : WPARAM) (lparam : LPARAM)
deriving DecidableEq, Repr

/-- The rectangle a window occupies after `SetWindowPos(w, _, x, y, cx, cy, _)`
without `SWP_NOMOVE`/`SWP_NOSIZE`: upper-left corner `(x, y)`, width `cx`,
height `cy`. -/
def placedRect (x y cx cy : Int) : RECT := ⟨x, y, x + cx, y + cy⟩

/-- A rectangle in client coordinates, as `GetClientRect` reports the client
area of a window: the upper-left corner is `(0, 0)`, and `right` and `bottom`
are the width and the height. -/
def isClientRect (r : RECT) : Prop := r.left = 0 ∧ r.top = 0

instance (r : RECT) : Decidable (isClientRect r) := by
  unfold isClientRect; infer_instance

/-- The data members of `Win32Window`. -/
structure Win32Window where
  quit_on_close_ : Bool
  window_handle_ : HWND
  child_content_ : HWND
  dpi_scale_ : ℚ
deriving DecidableEq

/-- The member initialisers of `Win32Window`: `quit_on_close_ = false`,
both handles null, `dpi_scale_ = 1.0`. -/
def Win32Window.new : Win32Window :=
  { quit_on_close_ := false, window_handle_ := nullptr, child_content_ := nullptr,
    dpi_scale_ := 1 }

/-! ## Win32 operations -/

/-- The helper `Scale`: the `int` source, converted to `double`, times the scale
factor in `double` arithmetic, converted back to `int`. -/
def Scale (source : Int) (scale_factor : ℚ) : Int :=
  static_cast_int (toDouble (toDouble (source : ℚ) * scale_factor))

/-- The helper `GetDpiScaleForMonitor`: the entry point is looked up unless the
static already holds it; the result is the monitor scale factor, converted to
`double` and divided by `100.0`, and `1.0` when the entry point is unavailable
or fails.  The second component is the static as the function leaves it. -/
def GetDpiScaleForMonitor (os : OS) (monitor : HMONITOR) :
    ℚ × Option GetScaleFactorForMonitorPtr :=
  let get_scale_factor_for_monitor_func :=
    match os.get_scale_factor_for_monitor_func with
    | none =>
      match os.shcore with
      | some entry => entry
      | none => none
    | some func => some func
  match get_scale_factor_for_monitor_func with
  | some func =>
    match func monitor with
    | some scale_factor =>
      (toDouble (toDouble (scale_factor : ℚ) / 100), get_scale_factor_for_monitor_func)
    | none => (1, get_scale_factor_for_monitor_func)
  | none => (1, none)

/-- The method `Win32Window::OnDestroy` (base implementation). -/
def OnDestroy (self : Win32Window) : Win32Window :=
  if self.child_content_ ≠ nullptr then { self with child_content_ := nullptr } else self

/-- The method `Win32Window::OnCreate` (base implementation). -/
def OnCreate (_self : Win32Window) : Bool := true

/-- The method `Win32Window::Destroy`. -/
def Destroy (self : Win32Window) : Win32Window × List OsCall :=
  let self := OnDestroy self
  if self.window_handle_ ≠ nullptr then
    ({ self with window_handle_ := nullptr }, [OsCall.DestroyWindow self.window_handle_])
  else
    (self, [])

/-- The method `Win32Window::CreateAndShow`.  `OnCreate` is virtual: the hook of the
dynamic type is passed in.  The static of `GetDpiScaleForMonitor` is process
state outside the shell: every call reads it from its own `OS`. -/
def CreateAndShow (self : Win32Window) (os : OS) (onCreate : Win32Window → Bool)
    (title : String) (origin : Point) (size : Size) (parent : HWND) :
    Win32Window × List OsCall × Bool :=
  let (self, destroyCalls) := Destroy self
  let target_x := toInt32 origin.x
  let target_y := toInt32 origin.y
  let monitor := os.MonitorFromPoint target_x target_y
  let self := { self with dpi_scale_ := (GetDpiScaleForMonitor os monitor).1 }
  let create := OsCall.CreateWindow title
    (Scale (toInt32 origin.x) self.dpi_scale_) (Scale (toInt32 origin.y) self.dpi_scale_)
    (Scale (toInt32 size.width) self.dpi_scale_) (Scale (toInt32 size.height) self.dpi_scale_)
    parent
  let self := { self with window_handle_ := os.CreateWindow }
  let calls := destroyCalls ++
    [OsCall.RegisterClass, OsCall.MonitorFromPoint target_x target_y, create]
  if self.window_handle_ = nullptr then
    (self, calls, false)
  else
    (self, calls, onCreate self)

/-- The method `Win32Window::SetChildContent`. -/
def SetChildContent (self : Win32Window) (os : OS) (content : HWND) :
    Win32Window × List OsCall :=
  let self := { self with child_content_ := content }
  let frame := os.GetClientRect self.window_handle_
  (self,
    [OsCall.SetParent content self.window_handle_,
     OsCall.GetClientRect self.window_handle_,
     OsCall.SetWindowPos content frame.left frame.top frame.right frame.bottom
       (SWP_NOZORDER ||| SWP_NOACTIVATE)])

/-- The method `Win32Window::GetHandle`. -/
def GetHandle (self : Win32Window) : HWND := self.window_handle_

/-- The method `Win32Window::SetQuitOnClose`. -/
def SetQuitOnClose (self : Win32Window) (quit_on_close : Bool) : Win32Window :=
  { self with quit_on_close_ := quit_on_close }

/-- The method `Win32Window::GetClientArea`. -/
def GetClientArea (self : Win32Window) (os : OS) : RECT × List OsCall :=
  (os.GetClientRect self.window_handle_, [OsCall.GetClientRect self.window_handle_])

/-- The method `Win32Window::MessageHandler`. -/
def MessageHandler (self : Win32Window) (os : OS) (hwnd : HWND) (message : UINT)
    (wparam : WPARAM) (lparam : LPARAM) : Win32Window × List OsCall × LRESULT :=
  if message = WM_DESTROY then
    (self, if self.quit_on_close_ then [OsCall.PostQuitMessage 0] else [], 0)
  else if message = WM_DPICHANGED then
    let newRectSize := os.rectAt lparam
    let newWidth := toInt32 (newRectSize.right - newRectSize.left)
    let newHeight := toInt32 (newRectSize.bottom - newRectSize.top)
    (self,
      [OsCall.SetWindowPos hwnd newRectSize.left newRectSize.top newWidth newHeight
        (SWP_NOZORDER ||| SWP_NOACTIVATE)],
      0)
  else if message = WM_SIZE then
    if self.child_content_ ≠ nullptr then
      let child_rect := os.GetClientRect self.window_handle_
      (self,
        [OsCall.GetClientRect self.window_handle_,
         OsCall.SetWindowPos self.child_content_ child_rect.left child_rect.top
           child_rect.right child_rect.bottom (SWP_NOZORDER ||| SWP_NOACTIVATE)],
        0)
    else
      (self, [], 0)
  else if message = WM_ACTIVATE then
    (self, if self.child_content_ ≠ nullptr then [OsCall.SetFocus self.child_content_] else [], 0)
  else if message = WM_SETFOCUS then
    (self, if self.child_content_ ≠ nullptr then [OsCall.SetFocus self.child_content_] else [], 0)
  else
    (self, [OsCall.DefWindowProc hwnd message wparam lparam],
      os.DefWindowProc hwnd message wparam lparam)

/-- A bound callback of the handler registry. -/
abbrev Handler :=
  Win32Window → OS → HWND → UINT → WPARAM → LPARAM → Win32Window × List OsCall × LRESULT

/-- The method `Win32Window::RegisterMessageHandlers`: the registry `message_handlers_`, one
entry per registered message kind, each bound to `MessageHandler`. -/
def RegisterMessageHandlers : List (UINT × Handler) :=
  [ (WM_DESTROY, fun self os hwnd message wparam lparam =>
      MessageHandler self os hwnd message wparam lparam),
    (WM_DPICHANGED, fun self os hwnd message wparam lparam =>
      MessageHandler self os hwnd message wparam lparam),
    (WM_SIZE, fun self os hwnd message wparam lparam =>
      MessageHandler self os hwnd message wparam lparam),
    (WM_ACTIVATE, fun self os hwnd message wparam lparam =>
      MessageHandler self os hwnd message wparam lparam),
    (WM_SETFOCUS, fun self os hwnd message wparam lparam =>
      MessageHandler self os hwnd message wparam lparam) ]

/-- Dispatch through the registry as the specification words it: look the
message kind up in the registry and run the bound callback; fall through to
the default OS window procedure when the kind is absent. -/
def registryDispatch (self : Win32Window) (os : OS) (hwnd : HWND) (message : UINT)
    (wparam : WPARAM) (lparam : LPARAM) : Win32Window × List OsCall × LRESULT :=
  match RegisterMessageHandlers.lookup message with
  | some handler => handler self os hwnd message wparam lparam
  | none =>
    (self, [OsCall.DefWindowProc hwnd message wparam lparam],
      os.DefWindowProc hwnd message wparam lparam)

/-- One public operation, or one handled window message, on a window shell. -/
inductive Op where
  | createAndShow (os : OS) (onCreate : Win32Window → Bool) (title : String)
      (origin : Point) (size : Size) (parent : HWND)
  | destroy
  | setChildContent (os : OS) (content : HWND)
  | setQuitOnClose (quit_on_close : Bool)
  | handleMessage (os : OS) (hwnd : HWND) (message : UINT) (wparam : WPARAM) (lparam : LPARAM)

/-- The shell state after one operation. -/
def Op.apply (self : Win32Window) : Op → Win32Window
  | Op.createAndShow os onCreate title origin size parent =>
    (CreateAndShow self os onCreate title origin size parent).1
  | Op.destroy => (Destroy self).1
  | Op.setChildContent os content => (SetChildContent self os content).1
  | Op.setQuitOnClose quit_on_close => SetQuitOnClose self quit_on_close
  | Op.handleMessage os hwnd message wparam lparam =>
    (MessageHandler self os hwnd message wparam lparam).1

/-- The shell state after a sequence of operations. -/
def run (self : Win32Window) (ops : List Op) : Win32Window :=
  ops.foldl Op.apply self

/-- The value last passed to `SetQuitOnClose` in a sequence of operations, and
`dflt` when there is none. -/
def lastQuitOnClose (dflt : Bool) : List Op → Bool
  | [] => dflt
  | Op.setQuitOnClose b :: ops => lastQuitOnClose b ops
  | _ :: ops => lastQuitOnClose dflt ops

/-- The handle a shell holds after a sequence of operations, read off the
operations: a `CreateAndShow` leaves the result of its `CreateWindow` call
(empty on failure), a `Destroy` leaves the empty handle, and every other
operation, handled messages included, leaves the handle as it was. -/
def handleAfter (handle : HWND) : List Op → HWND
  | [] => handle
  | Op.createAndShow os _ _ _ _ _ :: ops => handleAfter os.CreateWindow ops
  | Op.destroy :: ops => handleAfter nullptr ops
  | _ :: ops => handleAfter handle ops

/-- Truncation toward zero of a rational, stated independently of
`static_cast_int`: the floor of a non-negative value, the ceiling of a negative
one. -/
def truncTowardZero (q : ℚ) : Int := if 0 ≤ q then ⌊q⌋ else ⌈q⌉

/-- An operating system on which window-class registration fails (the class
atom is `0`) while window creation succeeds with handle `7`; the DPI API is
unavailable. -/
def osRegistrationFails : OS :=
  { RegisterClass := 0
    MonitorFromPoint := fun _ _ => 1
    get_scale_factor_for_monitor_func := none
    shcore := none
    CreateWindow := 7
    GetClientRect := fun _ => ⟨0, 0, 800, 600⟩
    rectAt := fun _ => ⟨0, 0, 0, 0⟩
    DefWindowProc := fun _ _ _ _ => 0 }

/-- An operating system on which every call succeeds: the monitor reports a
scale factor of 150 percent, window creation yields handle `7`, the client
rectangle is `800 x 600` and an `LPARAM` points to the rectangle
`(100, 50) - (1060, 770)`. -/
def osAllSucceed : OS :=
  { RegisterClass := 49152
    MonitorFromPoint := fun _ _ => 1
    get_scale_factor_for_monitor_func := none
    shcore := some (some (fun _ => some 150))
    CreateWindow := 7
    GetClientRect := fun _ => ⟨0, 0, 800, 600⟩
    rectAt := fun _ => ⟨100, 50, 1060, 770⟩
    DefWindowProc := fun _ _ _ _ => 0 }

/-- An operating system on which every call succeeds and the monitor reports
a scale factor of 140 percent (`SCALE_140_PERCENT`). -/
def osScale140 : OS :=
  { RegisterClass := 49152
    MonitorFromPoint := fun _ _ => 1
    get_scale_factor_for_monitor_func := none
    shcore := some (some (fun _ => some 140))
    CreateWindow := 7
    GetClientRect := fun _ => ⟨0, 0, 800, 600⟩
    rectAt := fun _ => ⟨100, 50, 1060, 770⟩
    DefWindowProc := fun _ _ _ _ => 0 }

/-- The percentage behind the scale factor of a monitor: the
`DEVICE_SCALE_FACTOR` the Shcore entry point reports, and `100` (the factor
`1.0`) when the entry point is unavailable or fails. -/
def monitorScalePercent (os : OS) (monitor : HMONITOR) : Int :=
  match os.get_scale_factor_for_monitor_func with
  | some func => (func monitor).getD 100
  | none =>
    match os.shcore with
    | some (some func) => (func monitor).getD 100
    | _ => 100

/-- What `double` rounding allows for a logical value `x` scaled by `p`
percent: the value `v` is the exact product `x * p / 100` truncated toward
zero, or it is one less, which can only happen when the exact product is an
integer and `p / 100` is not a multiple of one quarter. -/
def doubleRoundingAllows (x p v : Int) : Prop :=
  v = truncTowardZero ((x : ℚ) * ((p : ℚ) / 100)) ∨
  (v = truncTowardZero ((x : ℚ) * ((p : ℚ) / 100)) - 1 ∧ 100 ∣ x * p ∧ ¬ 25 ∣ p)

/-! ## GTK application shell -/

/-- Lexicographic comparison of two character sequences, up to the sign of
the result: the first position where they differ decides, and a proper
initial segment sorts first. -/
def strcmpFrom : List Char → List Char → Int
  | [], [] => 0
  | [], _ :: _ => -1
  | _ :: _, [] => 1
  | c1 :: rest1, c2 :: rest2 =>
    if c1.toNat < c2.toNat then -1
    else if c2.toNat < c1.toNat then 1
    else strcmpFrom rest1 rest2

/-- C `strcmp`, up to the sign of the result: `0` on equal strings, negative
when the first string sorts first, positive otherwise.  (The order of UTF-8
byte sequences is the order of the code point sequences.) -/
def strcmp (s1 s2 : String) : Int := strcmpFrom s1.data s2.data

/-- GLib `g_strcmp0`: `strcmp` that accepts null strings; null sorts before
every string and equals null. -/
def g_strcmp0 (str1 str2 : Option String) : Int :=
  match str1, str2 with
  | none, none => 0
  | none, some _ => -1
  | some _, none => 1
  | some s1, some s2 => strcmp s1 s2

/-- The display of the application window: an X11 display, with the
window-manager name its default screen reports (possibly null), or a display
of another windowing system. -/
inductive GdkDisplay where
  | x11 (wm_name : Option String)
  | other
deriving DecidableEq, Repr

/-- The widgets `my_application_activate` creates. -/
inductive Widget where
  | window
  | header_bar
  | view
deriving DecidableEq, Repr

/-- A GTK or engine call issued by `my_application_activate`. -/
inductive GtkCall where
  | gtk_application_window_new
  | gtk_header_bar_new
  | gtk_widget_show (widget : Widget)
  | gtk_header_bar_set_title (title : String)
  | gtk_header_bar_set_show_close_button (setting : Bool)
  | gtk_window_set_titlebar (titlebar : Widget)
  | gtk_window_set_title (title : String)
  | gtk_window_set_default_size (width height : Int)
  | fl_dart_project_new
  | fl_dart_project_set_dart_entrypoint_arguments (argv : String)
  | fl_view_new
  | gtk_container_add (container widget : Widget)
  | fl_register_plugins (registry : Widget)
  | gtk_widget_grab_focus (widget : Widget)
deriving DecidableEq, Repr

/-- The value of the local `use_header_bar` of `my_application_activate` when
the title bar is chosen. -/
def use_header_bar (display : GdkDisplay) : Bool :=
  match display with
  | GdkDisplay.x11 wm_name => g_strcmp0 wm_name (some "GNOME Shell") != 0
  | GdkDisplay.other => true

/-- The function `my_application_activate`: the calls it issues, in program order.
`dart_entrypoint_arguments` is the field of the application instance. -/
def my_application_activate (dart_entrypoint_arguments : Option String)
    (display : GdkDisplay) : List GtkCall :=
  [GtkCall.gtk_application_window_new] ++
  (if use_header_bar display then
    [GtkCall.gtk_header_bar_new,
     GtkCall.gtk_widget_show Widget.header_bar,
     GtkCall.gtk_header_bar_set_title "CommCoach",
     GtkCall.gtk_header_bar_set_show_close_button true,
     GtkCall.gtk_window_set_titlebar Widget.header_bar]
  else
    [GtkCall.gtk_window_set_title "CommCoach"]) ++
  [GtkCall.gtk_window_set_default_size 1280 720,
   GtkCall.gtk_widget_show Widget.window,
   GtkCall.fl_dart_project_new] ++
  (match dart_entrypoint_arguments with
   | some argv => [GtkCall.fl_dart_project_set_dart_entrypoint_arguments argv]
   | none => []) ++
  [GtkCall.fl_view_new,
   GtkCall.gtk_widget_show Widget.view,
   GtkCall.gtk_container_add Widget.window Widget.view,
   GtkCall.fl_register_plugins Widget.view,
   GtkCall.gtk_widget_grab_focus Widget.view]

/-- The activation selects the header-bar style: a header bar is installed
as the title bar of the window. -/
def selectsHeaderBar (calls : List GtkCall) : Bool :=
  calls.contains (GtkCall.gtk_window_set_titlebar Widget.header_bar)

/-- The activation selects the traditional title bar: the window title is set
on the window itself. -/
def selectsTraditionalTitleBar (calls : List GtkCall) : Bool :=
  calls.contains (GtkCall.gtk_window_set_title "CommCoach")

/-- GLib `g_strjoinv`: the strings of the array, each but the first preceded
by the separator; the empty string for an empty array. -/
def g_strjoinv (separator : String) : List String → String
  | [] => ""
  | first :: rest => rest.foldl (fun joined s => joined ++ separator ++ s) first

/-- What `my_application_local_command_line` does: the one `g_setenv` call
(variable, value, overwrite flag) and the value it returns. -/
structure LocalCommandLine where
  setenv_variable : String
  setenv_value : String
  setenv_overwrite : Bool
  result : Int
deriving DecidableEq, Repr

/-- The function `my_application_local_command_line`.  `arguments` is the null-terminated
argument vector; `*arguments + 1` is defined only when the vector has a first
element.  `fl_dart_project_run` is the engine entry point. -/
def my_application_local_command_line (fl_dart_project_run : List String → Int → Int)
    (arguments : List String) (exit_status : Int) : Option LocalCommandLine :=
  match arguments with
  | [] => none
  | _ :: remaining =>
    let args := remaining
    let command_line := g_strjoinv " " args
    let entrypoint := "dart_entrypoint_arguments=" ++ command_line
    let result := fl_dart_project_run arguments exit_status
    some { setenv_variable := "FLUTTER_ENTRYPOINT", setenv_value := entrypoint,
           setenv_overwrite := true, result := result }

/-! ## Auxiliary facts -/

theorem toInt32_of_fits (v : Int) (h : fitsInt32 v) : toInt32 v = v := by
  unfold fitsInt32 at h
  unfold toInt32
  have h1 : (0 : Int) ≤ v + 2 ^ 31 := by omega
  have h2 : v + 2 ^ 31 < (2 : Int) ^ 32 := by omega
  rw [Int.emod_eq_of_lt h1 h2]
  omega

theorem tdiv_eq_truncTowardZero (q : ℚ) :
    Int.tdiv q.num q.den = truncTowardZero q := by
  unfold truncTowardZero
  have hden : (0 : Int) ≤ (q.den : Int) := Int.natCast_nonneg _
  split_ifs with h
  · have hnum : 0 ≤ q.num := Rat.num_nonneg.mpr h
    rw [Int.tdiv_eq_ediv hnum hden, Rat.floor_def]
  · have hnum : q.num < 0 := Rat.num_neg.mpr (lt_of_not_ge h)
    have hceil : ⌈q⌉ = -⌊-q⌋ := by rw [Int.floor_neg, neg_neg]
    rw [hceil, Rat.floor_def, Rat.neg_num, Rat.neg_den]
    have h3 : q.num.tdiv q.den = -((-q.num).tdiv q.den) := by
      rw [Int.neg_tdiv, neg_neg]
    rw [h3, Int.tdiv_eq_ediv (by omega) hden]

theorem static_cast_int_of_floor (y : ℚ) (n : Int) (h0 : 0 ≤ n) (h31 : n < 2 ^ 31)
    (hlo : (n : ℚ) ≤ y) (hhi : y < (n : ℚ) + 1) : static_cast_int y = n := by
  have hy : 0 ≤ y := le_trans (by exact_mod_cast h0) hlo
  have ht : Int.tdiv y.num y.den = n := by
    rw [tdiv_eq_truncTowardZero, truncTowardZero, if_pos hy, Int.floor_eq_iff]
    exact ⟨hlo, hhi⟩
  unfold static_cast_int
  rw [ht, if_pos]
  unfold fitsInt32
  constructor <;> omega

theorem roundHalfEven_abs_sub_le (m : ℚ) : |(roundHalfEven m : ℚ) - m| ≤ 1 / 2 := by
  have h0 : (0 : ℚ) ≤ m - ⌊m⌋ := sub_nonneg.mpr (Int.floor_le m)
  have h1 : m - ⌊m⌋ < 1 := by
    have := Int.lt_floor_add_one m
    linarith
  unfold roundHalfEven
  rw [abs_le]
  split_ifs with a b c
  · constructor <;> linarith
  · push_cast; constructor <;> linarith
  · have : m - ⌊m⌋ = 1 / 2 := le_antisymm (not_lt.mp b) (not_lt.mp a)
    constructor <;> linarith
  · have : m - ⌊m⌋ = 1 / 2 := le_antisymm (not_lt.mp b) (not_lt.mp a)
    push_cast; constructor <;> linarith

theorem roundHalfEven_intCast (n : Int) : roundHalfEven (n : ℚ) = n := by
  unfold roundHalfEven
  simp

theorem roundHalfEven_of_floor (m : ℚ) (n : Int) (hlo : (n : ℚ) ≤ m) (hhi : m < n + 1 / 2) :
    roundHalfEven m = n := by
  have hfl : ⌊m⌋ = n := by
    rw [Int.floor_eq_iff]
    constructor
    · exact hlo
    · linarith
  unfold roundHalfEven
  rw [hfl, if_pos (by linarith)]

theorem log_two_eq_of_bounds (r : ℚ) (k : Int) (hlo : (2 : ℚ) ^ k ≤ r)
    (hhi : r < (2 : ℚ) ^ (k + 1)) : Int.log 2 r = k := by
  have hr : 0 < r := lt_of_lt_of_le (by positivity) hlo
  apply le_antisymm
  · have := (Int.lt_zpow_iff_log_lt (b := 2) (by norm_num) hr (x := k + 1)).mp
      (by exact_mod_cast hhi)
    omega
  · exact (Int.zpow_le_iff_le_log (b := 2) (by norm_num) hr).mp (by exact_mod_cast hlo)

theorem ulpExponent_bounds (q : ℚ) (hq : q ≠ 0) :
    (2 : ℚ) ^ (ulpExponent q + 52) ≤ |q| ∧ |q| < (2 : ℚ) ^ (ulpExponent q + 53) := by
  have hpos : 0 < |q| := abs_pos.mpr hq
  unfold ulpExponent
  constructor
  · have := Int.zpow_log_le_self (b := 2) (by norm_num) hpos
    simpa using this
  · have := Int.lt_zpow_succ_log_self (b := 2) (by norm_num) |q|
    have e : Int.log 2 |q| - 52 + 53 = Int.log 2 |q| + 1 := by ring
    rw [e]
    simpa using this

theorem toDouble_abs_sub_le (q : ℚ) : |toDouble q - q| ≤ |q| * 2 ^ (-53 : Int) := by
  by_cases hq : q = 0
  · simp [toDouble, hq]
  · obtain ⟨hlo, _⟩ := ulpExponent_bounds q hq
    have hpow : (0 : ℚ) < 2 ^ ulpExponent q := by positivity
    have hround := roundHalfEven_abs_sub_le (q / 2 ^ ulpExponent q)
    have hrew : toDouble q - q =
        ((roundHalfEven (q / 2 ^ ulpExponent q) : ℚ) - q / 2 ^ ulpExponent q) *
          2 ^ ulpExponent q := by
      unfold toDouble
      rw [if_neg hq]
      field_simp
    rw [hrew, abs_mul, abs_of_pos hpow]
    have h1 : |(roundHalfEven (q / 2 ^ ulpExponent q) : ℚ) - q / 2 ^ ulpExponent q| *
        2 ^ ulpExponent q ≤ 1 / 2 * 2 ^ ulpExponent q :=
      mul_le_mul_of_nonneg_right hround hpow.le
    have h2 : (1 / 2 : ℚ) * 2 ^ ulpExponent q = 2 ^ (ulpExponent q + 52) * 2 ^ (-53 : Int) := by
      rw [← zpow_add₀ (by norm_num : (2 : ℚ) ≠ 0)]
      have : ulpExponent q + 52 + -53 = ulpExponent q - 1 := by ring
      rw [this, zpow_sub_one₀ (by norm_num : (2 : ℚ) ≠ 0)]
      ring
    have h3 : (2 : ℚ) ^ (ulpExponent q + 52) * 2 ^ (-53 : Int) ≤ |q| * 2 ^ (-53 : Int) :=
      mul_le_mul_of_nonneg_right hlo (by positivity)
    linarith

theorem toDouble_eq_of_bounds (q : ℚ) (n z : Int) (h52 : (2 : Int) ^ 52 ≤ n)
    (h53 : n < (2 : Int) ^ 53) (hlo : (n : ℚ) * 2 ^ z ≤ q)
    (hhi : q < ((n : ℚ) + 1 / 2) * 2 ^ z) : toDouble q = (n : ℚ) * 2 ^ z := by
  have hz : (0 : ℚ) < 2 ^ z := by positivity
  have hn52 : ((2 : ℚ) ^ (52 : Int)) ≤ (n : ℚ) := by
    have h : ((2 ^ 52 : Int) : ℚ) ≤ (n : ℚ) := by exact_mod_cast h52
    norm_num at h ⊢
    exact h
  have hn53 : (n : ℚ) + 1 ≤ (2 : ℚ) ^ (53 : Int) := by
    have h : ((n + 1 : Int) : ℚ) ≤ ((2 ^ 53 : Int) : ℚ) := by exact_mod_cast h53
    norm_num at h ⊢
    exact h
  have hnpos : (0 : ℚ) < n := lt_of_lt_of_le (by positivity) hn52
  have hqpos : 0 < q := lt_of_lt_of_le (mul_pos hnpos hz) hlo
  have hlog : Int.log 2 |q| = z + 52 := by
    apply log_two_eq_of_bounds
    · rw [abs_of_pos hqpos, add_comm, zpow_add₀ (by norm_num : (2 : ℚ) ≠ 0)]
      exact le_trans (mul_le_mul_of_nonneg_right hn52 hz.le) hlo
    · rw [abs_of_pos hqpos]
      have e : z + 52 + 1 = 53 + z := by ring
      rw [e, zpow_add₀ (by norm_num : (2 : ℚ) ≠ 0)]
      have : ((n : ℚ) + 1 / 2) * 2 ^ z < (2 : ℚ) ^ (53 : Int) * 2 ^ z := by
        apply mul_lt_mul_of_pos_right _ hz
        linarith
      exact lt_trans hhi this
  have hexp : ulpExponent q = z := by
    unfold ulpExponent
    rw [hlog]
    ring
  have hround : roundHalfEven (q / 2 ^ z) = n := by
    apply roundHalfEven_of_floor
    · rw [le_div_iff₀ hz]
      exact hlo
    · rw [div_lt_iff₀ hz]
      exact hhi
  unfold toDouble
  rw [if_neg hqpos.ne', hexp, hround]

theorem toDouble_of_dyadic (n z : Int) (hn : |n| < (2 : Int) ^ 53) :
    toDouble ((n : ℚ) * 2 ^ z) = (n : ℚ) * 2 ^ z := by
  by_cases h0 : n = 0
  · simp [toDouble, h0]
  · have hz : (0 : ℚ) < 2 ^ z := by positivity
    have hq : (n : ℚ) * 2 ^ z ≠ 0 := mul_ne_zero (by exact_mod_cast h0) hz.ne'
    obtain ⟨hlo, _⟩ := ulpExponent_bounds _ hq
    set e := ulpExponent ((n : ℚ) * 2 ^ z) with he
    have habs : |(n : ℚ) * 2 ^ z| < (2 : ℚ) ^ (53 + z) := by
      rw [abs_mul, abs_of_pos hz, zpow_add₀ (by norm_num : (2 : ℚ) ≠ 0)]
      apply mul_lt_mul_of_pos_right _ hz
      have h : ((|n| : Int) : ℚ) < ((2 ^ 53 : Int) : ℚ) := by exact_mod_cast hn
      norm_num at h ⊢
      exact h
    have hlt : (2 : ℚ) ^ (e + 52) < (2 : ℚ) ^ (53 + z) := lt_of_le_of_lt hlo habs
    have hez : e + 52 < 53 + z := (zpow_lt_zpow_iff_right₀ (by norm_num : (1 : ℚ) < 2)).mp hlt
    have hle : e ≤ z := by omega
    obtain ⟨k, hk⟩ : ∃ k : ℕ, z = e + k := ⟨(z - e).toNat, by omega⟩
    have hdiv : (n : ℚ) * 2 ^ z / 2 ^ e = ((n * 2 ^ k : Int) : ℚ) := by
      rw [hk, zpow_add₀ (by norm_num : (2 : ℚ) ≠ 0), zpow_natCast]
      push_cast
      field_simp
      ring
    unfold toDouble
    rw [if_neg hq, ← he, hdiv, roundHalfEven_intCast]
    rw [hk, zpow_add₀ (by norm_num : (2 : ℚ) ≠ 0), zpow_natCast]
    push_cast
    ring

theorem toDouble_intCast (n : Int) (hn : |n| < (2 : Int) ^ 53) : toDouble (n : ℚ) = n := by
  have := toDouble_of_dyadic n 0 hn
  simpa using this

theorem Scale_zero (d : ℚ) : Scale 0 d = 0 := by
  unfold Scale
  have h0 : toDouble ((0 : Int) : ℚ) = 0 := by simp [toDouble]
  rw [h0, zero_mul]
  have h1 : toDouble 0 = 0 := by simp [toDouble]
  rw [h1]
  exact static_cast_int_of_floor 0 0 (le_refl _) (by norm_num) (by norm_num) (by norm_num)

theorem static_cast_int_eq_truncTowardZero (y : ℚ) (h0 : 0 ≤ y) (h31 : y < 2 ^ 31) :
    static_cast_int y = truncTowardZero y := by
  have hfl : truncTowardZero y = ⌊y⌋ := by rw [truncTowardZero, if_pos h0]
  rw [hfl]
  apply static_cast_int_of_floor
  · exact Int.floor_nonneg.mpr h0
  · have : ⌊y⌋ < ((2 ^ 31 : Int)) := by
      rw [Int.floor_lt]
      push_cast
      exact h31
    exact this
  · exact Int.floor_le y
  · exact Int.lt_floor_add_one y

theorem truncTowardZero_scaled (x p : Int) (hx0 : 0 ≤ x) (hp : 100 ≤ p) :
    truncTowardZero ((x : ℚ) * ((p : ℚ) / 100)) = x * p / 100 := by
  have hnn : (0 : ℚ) ≤ (x : ℚ) * ((p : ℚ) / 100) := by
    have h1 : (0 : ℚ) ≤ (x : ℚ) := by exact_mod_cast hx0
    have h2 : (0 : ℚ) ≤ (p : ℚ) := by
      have : (0 : Int) ≤ p := by omega
      exact_mod_cast this
    positivity
  rw [truncTowardZero, if_pos hnn]
  have e : (x : ℚ) * ((p : ℚ) / 100) = ((x * p : Int) : ℚ) / ((100 : Int) : ℚ) := by
    push_cast
    ring
  rw [e]
  exact Rat.floor_intCast_div_natCast (x * p) 100

theorem Scale_exact_of_dvd (x p : Int) (hx0 : 0 ≤ x) (hp : 100 ≤ p)
    (hxp : x * p < 100 * 2 ^ 31) (h25 : 25 ∣ p) :
    Scale x (toDouble ((p : ℚ) / 100)) = truncTowardZero ((x : ℚ) * ((p : ℚ) / 100)) := by
  by_cases hx : x = 0
  · subst hx
    rw [Scale_zero]
    simp [truncTowardZero]
  · have hx1 : 1 ≤ x := by omega
    obtain ⟨m, rfl⟩ := h25
    have hm0 : 4 ≤ m := by omega
    have hxm : x * m < 2 ^ 33 := by
      have : x * (25 * m) = 25 * (x * m) := by ring
      omega
    have hmle : m ≤ x * m := by nlinarith
    have hxle : x ≤ x * m := by nlinarith
    have hs : (((25 * m : Int) : ℚ)) / 100 = (m : ℚ) * 2 ^ (-2 : Int) := by
      push_cast
      norm_num
      ring
    have hd : toDouble ((((25 * m : Int) : ℚ)) / 100) = (m : ℚ) * 2 ^ (-2 : Int) := by
      rw [hs]
      exact toDouble_of_dyadic m (-2) (by rw [abs_of_nonneg (by omega)]; omega)
    have hxd : toDouble (x : ℚ) = x :=
      toDouble_intCast x (by rw [abs_of_nonneg hx0]; omega)
    have hprod : toDouble ((x : ℚ) * ((m : ℚ) * 2 ^ (-2 : Int))) =
        (x : ℚ) * ((m : ℚ) * 2 ^ (-2 : Int)) := by
      have e : (x : ℚ) * ((m : ℚ) * 2 ^ (-2 : Int)) = ((x * m : Int) : ℚ) * 2 ^ (-2 : Int) := by
        push_cast
        ring
      rw [e]
      exact toDouble_of_dyadic (x * m) (-2) (by rw [abs_of_nonneg (by omega)]; omega)
    unfold Scale
    rw [hd, hxd, hprod, ← hs]
    apply static_cast_int_eq_truncTowardZero
    · have h1 : (0 : ℚ) ≤ (x : ℚ) := by exact_mod_cast hx0
      have h2 : (0 : ℚ) ≤ ((25 * m : Int) : ℚ) := by
        have : (0 : Int) ≤ 25 * m := by omega
        exact_mod_cast this
      positivity
    · have h : ((x * (25 * m) : Int) : ℚ) < ((100 * 2 ^ 31 : Int) : ℚ) := by exact_mod_cast hxp
      push_cast at h ⊢
      linarith

theorem toDouble_two_sided (q : ℚ) (hq : 0 ≤ q) :
    q * (1 - 2 ^ (-53 : Int)) ≤ toDouble q ∧ toDouble q ≤ q * (1 + 2 ^ (-53 : Int)) := by
  have h := toDouble_abs_sub_le q
  rw [abs_of_nonneg hq, abs_le] at h
  constructor <;> linarith [h.1, h.2]

theorem Scale_product_error (x : Int) (s : ℚ) (hx0 : 0 ≤ x) (hx : x < 2 ^ 31) (hs : 0 ≤ s)
    (hxs : (x : ℚ) * s < 2 ^ 31) :
    |toDouble (toDouble (x : ℚ) * toDouble s) - (x : ℚ) * s| < 1 / 100 := by
  have hxd : toDouble (x : ℚ) = x :=
    toDouble_intCast x (by rw [abs_of_nonneg hx0]; omega)
  have hxq : (0 : ℚ) ≤ (x : ℚ) := by exact_mod_cast hx0
  have hE : (2 : ℚ) ^ (-53 : Int) = 1 / 9007199254740992 := by norm_num
  obtain ⟨hd1, hd2⟩ := toDouble_two_sided s hs
  have hd0 : 0 ≤ toDouble s := by
    refine le_trans ?_ hd1
    rw [hE]
    apply mul_nonneg hs
    norm_num
  have hxd0 : (0 : ℚ) ≤ (x : ℚ) * toDouble s := mul_nonneg hxq hd0
  obtain ⟨hy1, hy2⟩ := toDouble_two_sided ((x : ℚ) * toDouble s) hxd0
  have hm1 : (x : ℚ) * (s * (1 - 2 ^ (-53 : Int))) ≤ (x : ℚ) * toDouble s :=
    mul_le_mul_of_nonneg_left hd1 hxq
  have hm2 : (x : ℚ) * toDouble s ≤ (x : ℚ) * (s * (1 + 2 ^ (-53 : Int))) :=
    mul_le_mul_of_nonneg_left hd2 hxq
  have hn1 : (x : ℚ) * (s * (1 - 2 ^ (-53 : Int))) * (1 - 2 ^ (-53 : Int)) ≤
      (x : ℚ) * toDouble s * (1 - 2 ^ (-53 : Int)) :=
    mul_le_mul_of_nonneg_right hm1 (by rw [hE]; norm_num)
  have hn2 : (x : ℚ) * toDouble s * (1 + 2 ^ (-53 : Int)) ≤
      (x : ℚ) * (s * (1 + 2 ^ (-53 : Int))) * (1 + 2 ^ (-53 : Int)) :=
    mul_le_mul_of_nonneg_right hm2 (by rw [hE]; norm_num)
  have hq0 : (0 : ℚ) ≤ (x : ℚ) * s := mul_nonneg hxq hs
  rw [hxd, abs_lt]
  rw [hE] at hy1 hy2 hn1 hn2
  constructor <;> linarith

theorem Scale_within_rounding (x p : Int) (hx0 : 0 ≤ x) (hp : 100 ≤ p)
    (hxp : x * p < 100 * 2 ^ 31) :
    doubleRoundingAllows x p (Scale x (toDouble ((p : ℚ) / 100))) ∧
    fitsInt32 (Scale x (toDouble ((p : ℚ) / 100))) := by
  have hx31 : x < 2 ^ 31 := by nlinarith
  have ht : truncTowardZero ((x : ℚ) * ((p : ℚ) / 100)) = x * p / 100 :=
    truncTowardZero_scaled x p hx0 hp
  have htfit : fitsInt32 (x * p / 100) := by
    have : 0 ≤ x * p := by nlinarith
    unfold fitsInt32
    constructor <;> omega
  by_cases h25 : 25 ∣ p
  · have hex := Scale_exact_of_dvd x p hx0 hp hxp h25
    rw [hex]
    refine ⟨Or.inl rfl, ?_⟩
    rw [ht]
    exact htfit
  · have hs0 : (0 : ℚ) ≤ (p : ℚ) / 100 := by
      have : (0 : ℚ) ≤ (p : ℚ) := by
        have : (0 : Int) ≤ p := by omega
        exact_mod_cast this
      positivity
    have hq : (x : ℚ) * ((p : ℚ) / 100) = ((x * p : Int) : ℚ) / 100 := by
      push_cast
      ring
    have hq31 : (x : ℚ) * ((p : ℚ) / 100) < 2 ^ 31 := by
      have h : ((x * p : Int) : ℚ) < ((100 * 2 ^ 31 : Int) : ℚ) := by exact_mod_cast hxp
      rw [hq]
      push_cast at h ⊢
      linarith
    have herr := Scale_product_error x ((p : ℚ) / 100) hx0 hx31 hs0 hq31
    rw [abs_lt] at herr
    obtain ⟨he1, he2⟩ := herr
    have hk0 : 0 ≤ x * p := by nlinarith
    have hdecomp : ((x * p : Int) : ℚ) =
        100 * ((x * p / 100 : Int) : ℚ) + ((x * p % 100 : Int) : ℚ) := by
      have := Int.ediv_add_emod (x * p) 100
      exact_mod_cast this.symm
    have hr0 : (0 : ℚ) ≤ ((x * p % 100 : Int) : ℚ) := by
      have : 0 ≤ x * p % 100 := by omega
      exact_mod_cast this
    have hr99 : ((x * p % 100 : Int) : ℚ) ≤ 99 := by
      have : x * p % 100 ≤ 99 := by omega
      exact_mod_cast this
    have ht0 : 0 ≤ x * p / 100 := by omega
    have ht31 : x * p / 100 < 2 ^ 31 := by omega
    unfold doubleRoundingAllows
    rw [ht]
    by_cases hr : x * p % 100 = 0
    · have hdvd : 100 ∣ x * p := Int.dvd_of_emod_eq_zero hr
      have hrq : ((x * p % 100 : Int) : ℚ) = 0 := by exact_mod_cast hr
      by_cases hy : ((x * p / 100 : Int) : ℚ) ≤
          toDouble (toDouble (x : ℚ) * toDouble ((p : ℚ) / 100))
      · have hv : Scale x (toDouble ((p : ℚ) / 100)) = x * p / 100 := by
          unfold Scale
          apply static_cast_int_of_floor _ _ ht0 ht31 hy
          linarith
        rw [hv]
        exact ⟨Or.inl rfl, htfit⟩
      · have hx1 : 1 ≤ x := by
          by_contra hneg
          have hx00 : x = 0 := by omega
          subst hx00
          apply hy
          have h0 : toDouble ((0 : Int) : ℚ) = 0 := by simp [toDouble]
          rw [h0, zero_mul]
          simp [toDouble]
        have ht1 : 1 ≤ x * p / 100 := by
          have : 100 ≤ x * p := by nlinarith
          omega
        have hv : Scale x (toDouble ((p : ℚ) / 100)) = x * p / 100 - 1 := by
          unfold Scale
          apply static_cast_int_of_floor _ _ (by omega) (by omega)
          · push_cast
            linarith
          · push_cast
            linarith
        rw [hv]
        refine ⟨Or.inr ⟨rfl, hdvd, h25⟩, ?_⟩
        unfold fitsInt32
        constructor <;> omega
    · have hr1 : (1 : ℚ) ≤ ((x * p % 100 : Int) : ℚ) := by
        have : 1 ≤ x * p % 100 := by omega
        exact_mod_cast this
      have hv : Scale x (toDouble ((p : ℚ) / 100)) = x * p / 100 := by
        unfold Scale
        apply static_cast_int_of_floor _ _ ht0 ht31
        · linarith
        · linarith
      rw [hv]
      exact ⟨Or.inl rfl, htfit⟩

theorem roundHalfEven_of_tie_odd (m : ℚ) (n : Int) (hm : m = (n : ℚ) + 1 / 2)
    (hodd : n % 2 = 1) : roundHalfEven m = n + 1 := by
  have hfl : ⌊m⌋ = n := by
    rw [Int.floor_eq_iff]
    constructor <;> linarith
  unfold roundHalfEven
  rw [hfl, hm]
  have h1 : ¬ ((n : ℚ) + 1 / 2 - (n : ℚ) < 1 / 2) := by norm_num
  have h2 : ¬ ((1 : ℚ) / 2 < (n : ℚ) + 1 / 2 - (n : ℚ)) := by norm_num
  rw [if_neg h1, if_neg h2, if_neg (by omega)]

theorem toDouble_eq_of_tie_odd (q : ℚ) (n z : Int) (h52 : (2 : Int) ^ 52 ≤ n)
    (h53 : n < (2 : Int) ^ 53) (hq : q = ((n : ℚ) + 1 / 2) * 2 ^ z) (hodd : n % 2 = 1) :
    toDouble q = ((n : ℚ) + 1) * 2 ^ z := by
  have hz : (0 : ℚ) < 2 ^ z := by positivity
  have hn52 : ((2 : ℚ) ^ (52 : Int)) ≤ (n : ℚ) := by
    have h : ((2 ^ 52 : Int) : ℚ) ≤ (n : ℚ) := by exact_mod_cast h52
    norm_num at h ⊢
    exact h
  have hn53 : (n : ℚ) + 1 ≤ (2 : ℚ) ^ (53 : Int) := by
    have h : ((n + 1 : Int) : ℚ) ≤ ((2 ^ 53 : Int) : ℚ) := by exact_mod_cast h53
    norm_num at h ⊢
    exact h
  have hnpos : (0 : ℚ) < n := lt_of_lt_of_le (by positivity) hn52
  have hqpos : 0 < q := by
    rw [hq]
    positivity
  have hlog : Int.log 2 |q| = z + 52 := by
    apply log_two_eq_of_bounds
    · rw [abs_of_pos hqpos, add_comm, zpow_add₀ (by norm_num : (2 : ℚ) ≠ 0), hq]
      apply mul_le_mul_of_nonneg_right _ hz.le
      linarith
    · rw [abs_of_pos hqpos]
      have e : z + 52 + 1 = 53 + z := by ring
      rw [e, zpow_add₀ (by norm_num : (2 : ℚ) ≠ 0), hq]
      apply mul_lt_mul_of_pos_right _ hz
      linarith
  have hexp : ulpExponent q = z := by
    unfold ulpExponent
    rw [hlog]
    ring
  have hround : roundHalfEven (q / 2 ^ z) = n + 1 := by
    apply roundHalfEven_of_tie_odd _ _ _ hodd
    rw [hq, mul_div_assoc, div_self hz.ne', mul_one]
  unfold toDouble
  rw [if_neg hqpos.ne', hexp, hround]
  push_cast
  ring

theorem toDouble_seven_fifths : toDouble (7 / 5) = 6305039478318694 / 2 ^ 52 := by
  rw [toDouble_eq_of_bounds (7 / 5) 6305039478318694 (-52) (by norm_num) (by norm_num)
    (by norm_num) (by norm_num)]
  norm_num

theorem Scale_45_at_140 : Scale 45 (6305039478318694 / 2 ^ 52) = 62 := by
  unfold Scale
  rw [toDouble_intCast 45 (by norm_num)]
  rw [toDouble_eq_of_bounds _ 8866461766385663 (-47) (by norm_num) (by norm_num)
    (by norm_num) (by norm_num)]
  exact static_cast_int_of_floor _ 62 (by norm_num) (by norm_num) (by norm_num) (by norm_num)

theorem Scale_720_at_140 : Scale 720 (6305039478318694 / 2 ^ 52) = 1007 := by
  unfold Scale
  rw [toDouble_intCast 720 (by norm_num)]
  rw [toDouble_eq_of_bounds _ 8866461766385663 (-43) (by norm_num) (by norm_num)
    (by norm_num) (by norm_num)]
  exact static_cast_int_of_floor _ 1007 (by norm_num) (by norm_num) (by norm_num) (by norm_num)

theorem Scale_1280_at_140 : Scale 1280 (6305039478318694 / 2 ^ 52) = 1792 := by
  unfold Scale
  rw [toDouble_intCast 1280 (by norm_num)]
  rw [toDouble_eq_of_tie_odd _ 7881299347898367 (-42) (by norm_num) (by norm_num)
    (by norm_num) (by norm_num)]
  exact static_cast_int_of_floor _ 1792 (by norm_num) (by norm_num) (by norm_num) (by norm_num)

theorem truncTowardZero_eq_of_bounds (q : ℚ) (n : Int) (h0 : 0 ≤ q)
    (hlo : (n : ℚ) ≤ q) (hhi : q < (n : ℚ) + 1) : truncTowardZero q = n := by
  rw [truncTowardZero, if_pos h0, Int.floor_eq_iff]
  exact ⟨hlo, hhi⟩

theorem MessageHandler_state (self : Win32Window) (os : OS) (hwnd : HWND) (message : UINT)
    (wparam : WPARAM) (lparam : LPARAM) :
    (MessageHandler self os hwnd message wparam lparam).1 = self := by
  unfold MessageHandler
  split_ifs <;> rfl

theorem OnDestroy_quit_on_close (self : Win32Window) :
    (OnDestroy self).quit_on_close_ = self.quit_on_close_ := by
  unfold OnDestroy
  split_ifs <;> rfl

theorem Destroy_quit_on_close (self : Win32Window) :
    (Destroy self).1.quit_on_close_ = self.quit_on_close_ := by
  unfold Destroy
  simp only []
  split_ifs <;> simp [OnDestroy_quit_on_close]

theorem CreateAndShow_quit_on_close (self : Win32Window) (os : OS)
    (onCreate : Win32Window → Bool) (title : String) (origin : Point) (size : Size)
    (parent : HWND) :
    (CreateAndShow self os onCreate title origin size parent).1.quit_on_close_ =
      self.quit_on_close_ := by
  unfold CreateAndShow
  simp only []
  split_ifs <;> simp [Destroy_quit_on_close]

theorem Op.apply_quit_on_close (self : Win32Window) (op : Op) :
    (Op.apply self op).quit_on_close_ = lastQuitOnClose self.quit_on_close_ [op] := by
  cases op with
  | createAndShow os onCreate title origin size parent =>
    simp [Op.apply, lastQuitOnClose, CreateAndShow_quit_on_close]
  | destroy => simp [Op.apply, lastQuitOnClose, Destroy_quit_on_close]
  | setChildContent os content => simp [Op.apply, lastQuitOnClose, SetChildContent]
  | setQuitOnClose b => simp [Op.apply, lastQuitOnClose, SetQuitOnClose]
  | handleMessage os hwnd message wparam lparam =>
    simp [Op.apply, lastQuitOnClose, MessageHandler_state]

theorem lastQuitOnClose_cons (dflt : Bool) (op : Op) (ops : List Op) :
    lastQuitOnClose dflt (op :: ops) = lastQuitOnClose (lastQuitOnClose dflt [op]) ops := by
  cases op <;> simp [lastQuitOnClose]

theorem run_quit_on_close (ops : List Op) (self : Win32Window) :
    (run self ops).quit_on_close_ = lastQuitOnClose self.quit_on_close_ ops := by
  induction ops generalizing self with
  | nil => rfl
  | cons op ops ih =>
    have hstep : run self (op :: ops) = run (Op.apply self op) ops := rfl
    rw [hstep, ih, Op.apply_quit_on_close, ← lastQuitOnClose_cons]

theorem g_strjoinv_foldl (separator : String) (rest : List String) (first : String) :
    rest.foldl (fun joined s => joined ++ separator ++ s) first =
      String.intercalate.go first separator rest := by
  induction rest generalizing first with
  | nil => rfl
  | cons s rest ih => simp only [List.foldl_cons, String.intercalate.go, ih]

theorem g_strjoinv_eq_intercalate (separator : String) (strs : List String) :
    g_strjoinv separator strs = separator.intercalate strs := by
  cases strs with
  | nil => rfl
  | cons first rest => exact g_strjoinv_foldl separator rest first

theorem Destroy_window_handle (self : Win32Window) :
    (Destroy self).1.window_handle_ = nullptr := by
  unfold Destroy OnDestroy
  by_cases hw : self.window_handle_ = nullptr <;>
    by_cases hc : self.child_content_ = nullptr <;> simp [hw, hc]

theorem CreateAndShow_window_handle (self : Win32Window) (os : OS)
    (onCreate : Win32Window → Bool) (title : String) (origin : Point) (size : Size)
    (parent : HWND) :
    (CreateAndShow self os onCreate title origin size parent).1.window_handle_ =
      os.CreateWindow := by
  unfold CreateAndShow
  by_cases hc : os.CreateWindow = nullptr <;> simp [hc]

theorem Op.apply_window_handle (self : Win32Window) (op : Op) :
    (Op.apply self op).window_handle_ = handleAfter self.window_handle_ [op] := by
  cases op with
  | createAndShow os onCreate title origin size parent =>
    simp [Op.apply, handleAfter, CreateAndShow_window_handle]
  | destroy => simp [Op.apply, handleAfter, Destroy_window_handle]
  | setChildContent os content => simp [Op.apply, handleAfter, SetChildContent]
  | setQuitOnClose b => simp [Op.apply, handleAfter, SetQuitOnClose]
  | handleMessage os hwnd message wparam lparam =>
    simp [Op.apply, handleAfter, MessageHandler_state]

theorem handleAfter_cons (handle : HWND) (op : Op) (ops : List Op) :
    handleAfter handle (op :: ops) = handleAfter (handleAfter handle [op]) ops := by
  cases op <;> simp [handleAfter]

/-- In every state reached through the operations, `GetHandle` returns the
result of the most recent `CreateWindow` call not followed by a `Destroy`, and
the empty handle after a `Destroy` or when nothing was created; a handled
message never changes it. -/
theorem GetHandle_run (ops : List Op) (self : Win32Window) :
    GetHandle (run self ops) = handleAfter self.window_handle_ ops := by
  induction ops generalizing self with
  | nil => rfl
  | cons op ops ih =>
    have hstep : run self (op :: ops) = run (Op.apply self op) ops := rfl
    rw [hstep, ih, Op.apply_window_handle, ← handleAfter_cons]

theorem strcmpFrom_eq_zero_iff (l1 l2 : List Char) : strcmpFrom l1 l2 = 0 ↔ l1 = l2 := by
  induction l1 generalizing l2 with
  | nil => cases l2 <;> simp [strcmpFrom]
  | cons c1 rest1 ih =>
    cases l2 with
    | nil => simp [strcmpFrom]
    | cons c2 rest2 =>
      unfold strcmpFrom
      split_ifs with h1 h2
      · have : c1 ≠ c2 := by rintro rfl; omega
        simp [this]
      · have : c1 ≠ c2 := by rintro rfl; omega
        simp [this]
      · have hc : c1 = c2 := by
          apply Char.ext
          apply UInt32.ext
          have : c1.toNat = c2.toNat := by omega
          exact this
        simp [hc, ih]

/-- On an X11 display the header bar is used exactly when the reported
window-manager name is not "GNOME Shell" (no name included). -/
theorem use_header_bar_x11 (wm_name : Option String) :
    use_header_bar (GdkDisplay.x11 wm_name) = true ↔ wm_name ≠ some "GNOME Shell" := by
  cases wm_name with
  | none => simp [use_header_bar, g_strcmp0]
  | some name =>
    simp only [use_header_bar, g_strcmp0, strcmp, bne_iff_ne, ne_eq, strcmpFrom_eq_zero_iff,
      Option.some.injEq]
    constructor
    · intro h e; exact h (by rw [e])
    · intro h e; exact h (String.ext e)

theorem GetDpiScaleForMonitor_eq_percent (os : OS) (monitor : HMONITOR) :
    (GetDpiScaleForMonitor os monitor).1 =
      toDouble (toDouble ((monitorScalePercent os monitor : Int) : ℚ) / 100) := by
  have h100 : toDouble (toDouble (100 : ℚ) / 100) = 1 := by
    have e100 : toDouble (100 : ℚ) = 100 := by
      have := toDouble_intCast 100 (by norm_num)
      simpa using this
    have e1 : toDouble (1 : ℚ) = 1 := by
      have := toDouble_intCast 1 (by norm_num)
      simpa using this
    rw [e100]
    norm_num
    exact e1
  unfold GetDpiScaleForMonitor monitorScalePercent
  cases hc : os.get_scale_factor_for_monitor_func with
  | some func =>
    cases hf : func monitor with
    | some scale_factor => simp [hf]
    | none => simp [hf, h100]
  | none =>
    cases hsh : os.shcore with
    | none => simp [h100]
    | some entry =>
      cases entry with
      | none => simp [h100]
      | some func =>
        cases hf : func monitor with
        | some scale_factor => simp [hf]
        | none => simp [hf, h100]

theorem CreateAndShow_calls (self : Win32Window) (os : OS) (onCreate : Win32Window → Bool)
    (title : String) (origin : Point) (size : Size) (parent : HWND)
    (hx : fitsInt32 (origin.x : Int)) (hy : fitsInt32 (origin.y : Int))
    (hw : fitsInt32 (size.width : Int)) (hh : fitsInt32 (size.height : Int)) :
    (CreateAndShow self os onCreate title origin size parent).2.1 =
      (Destroy self).2 ++
        [OsCall.RegisterClass,
         OsCall.MonitorFromPoint (origin.x : Int) (origin.y : Int),
         OsCall.CreateWindow title
           (Scale (origin.x : Int) (GetDpiScaleForMonitor os
             (os.MonitorFromPoint (origin.x : Int) (origin.y : Int))).1)
           (Scale (origin.y : Int) (GetDpiScaleForMonitor os
             (os.MonitorFromPoint (origin.x : Int) (origin.y : Int))).1)
           (Scale (size.width : Int) (GetDpiScaleForMonitor os
             (os.MonitorFromPoint (origin.x : Int) (origin.y : Int))).1)
           (Scale (size.height : Int) (GetDpiScaleForMonitor os
             (os.MonitorFromPoint (origin.x : Int) (origin.y : Int))).1) parent] ∧
    (CreateAndShow self os onCreate title origin size parent).1.dpi_scale_ =
      (GetDpiScaleForMonitor os
        (os.MonitorFromPoint (origin.x : Int) (origin.y : Int))).1 := by
  constructor
  · unfold CreateAndShow
    simp only [toInt32_of_fits _ hx, toInt32_of_fits _ hy, toInt32_of_fits _ hw,
      toInt32_of_fits _ hh]
    split_ifs <;> simp
  · unfold CreateAndShow
    simp only [toInt32_of_fits _ hx, toInt32_of_fits _ hy]
    split_ifs <;> rfl

theorem doubleRoundingAllows_of_dvd (x p v : Int) (h25 : 25 ∣ p)
    (h : doubleRoundingAllows x p v) : v = truncTowardZero ((x : ℚ) * ((p : ℚ) / 100)) := by
  rcases h with h | ⟨_, _, hn⟩
  · exact h
  · exact absurd h25 hn

/-! ## The claims -/

/-- C1 (code defect).  On an X11 display `my_application_activate` chooses the
title bar the wrong way round: when the window manager reports exactly
"GNOME Shell" it sets `use_header_bar` to false and installs the traditional
title bar, and for another name ("i3") and for no name it installs the header
bar. -/
theorem my_application_activate_title_bar_inverted :
    use_header_bar (GdkDisplay.x11 (some "GNOME Shell")) = false ∧
    selectsHeaderBar
      (my_application_activate none (GdkDisplay.x11 (some "GNOME Shell"))) = false ∧
    selectsTraditionalTitleBar
      (my_application_activate none (GdkDisplay.x11 (some "GNOME Shell"))) = true ∧
    selectsHeaderBar (my_application_activate none (GdkDisplay.x11 (some "i3"))) = true ∧
    selectsTraditionalTitleBar
      (my_application_activate none (GdkDisplay.x11 (some "i3"))) = false ∧
    selectsHeaderBar (my_application_activate none (GdkDisplay.x11 none)) = true ∧
    selectsTraditionalTitleBar
      (my_application_activate none (GdkDisplay.x11 none)) = false := by
  decide

/-- C2.  For every client rectangle `(left, top, right, bottom)` the OS
reports for the top-level window (a rectangle in client coordinates, see
`isClientRect`), `SetChildContent h` stores `h`, re-parents it and places it at
`(left, top)` with width `right - left` and height `bottom - top`, so that the
rectangle of the child is exactly the client rectangle; and a size-change
message handled while child content is set places the child on the client
rectangle reported at that time in the same way, and returns `0`. -/
theorem SetChildContent_and_WM_SIZE_fill_client_rect
    (self : Win32Window) (os : OS) (h : HWND)
    (shell : Win32Window) (os2 : OS) (hwnd : HWND) (wparam : WPARAM) (lparam : LPARAM)
    (hframe : isClientRect (os.GetClientRect self.window_handle_))
    (hchild : shell.child_content_ ≠ nullptr)
    (hframe2 : isClientRect (os2.GetClientRect shell.window_handle_)) :
    (SetChildContent self os h).1 = { self with child_content_ := h } ∧
    (SetChildContent self os h).2 =
      [OsCall.SetParent h self.window_handle_,
       OsCall.GetClientRect self.window_handle_,
       OsCall.SetWindowPos h
         (os.GetClientRect self.window_handle_).left
         (os.GetClientRect self.window_handle_).top
         ((os.GetClientRect self.window_handle_).right -
           (os.GetClientRect self.window_handle_).left)
         ((os.GetClientRect self.window_handle_).bottom -
           (os.GetClientRect self.window_handle_).top)
         (SWP_NOZORDER ||| SWP_NOACTIVATE)] ∧
    placedRect
        (os.GetClientRect self.window_handle_).left
        (os.GetClientRect self.window_handle_).top
        ((os.GetClientRect self.window_handle_).right -
          (os.GetClientRect self.window_handle_).left)
        ((os.GetClientRect self.window_handle_).bottom -
          (os.GetClientRect self.window_handle_).top) =
      os.GetClientRect self.window_handle_ ∧
    MessageHandler shell os2 hwnd WM_SIZE wparam lparam =
      (shell,
       [OsCall.GetClientRect shell.window_handle_,
        OsCall.SetWindowPos shell.child_content_
          (os2.GetClientRect shell.window_handle_).left
          (os2.GetClientRect shell.window_handle_).top
          ((os2.GetClientRect shell.window_handle_).right -
            (os2.GetClientRect shell.window_handle_).left)
          ((os2.GetClientRect shell.window_handle_).bottom -
            (os2.GetClientRect shell.window_handle_).top)
          (SWP_NOZORDER ||| SWP_NOACTIVATE)],
       0) ∧
    placedRect
        (os2.GetClientRect shell.window_handle_).left
        (os2.GetClientRect shell.window_handle_).top
        ((os2.GetClientRect shell.window_handle_).right -
          (os2.GetClientRect shell.window_handle_).left)
        ((os2.GetClientRect shell.window_handle_).bottom -
          (os2.GetClientRect shell.window_handle_).top) =
      os2.GetClientRect shell.window_handle_ := by
  obtain ⟨hleft, htop⟩ := hframe
  obtain ⟨hleft2, htop2⟩ := hframe2
  refine ⟨rfl, ?_, ?_, ?_, ?_⟩
  · simp only [SetChildContent, hleft, htop, sub_zero]
  · simp [placedRect]
  · simp only [MessageHandler, hleft2, htop2, sub_zero]
    simp [WM_SIZE, WM_DESTROY, WM_DPICHANGED, hchild]
  · simp [placedRect]

/-- C2, at a concrete input: an `800 x 600` client rectangle, child handle
`9`, on a created window with handle `7`. -/
theorem SetChildContent_and_WM_SIZE_fill_client_rect_witness :
    (SetChildContent ⟨false, 7, 0, 1⟩ osAllSucceed 9).2 =
      [OsCall.SetParent 9 7, OsCall.GetClientRect 7,
       OsCall.SetWindowPos 9 0 0 800 600 (SWP_NOZORDER ||| SWP_NOACTIVATE)] ∧
    MessageHandler ⟨false, 7, 9, 1⟩ osAllSucceed 7 WM_SIZE 0 0 =
      (⟨false, 7, 9, 1⟩,
       [OsCall.GetClientRect 7,
        OsCall.SetWindowPos 9 0 0 800 600 (SWP_NOZORDER ||| SWP_NOACTIVATE)], 0) :=
  have key := SetChildContent_and_WM_SIZE_fill_client_rect
    ⟨false, 7, 0, 1⟩ osAllSucceed 9 ⟨false, 7, 9, 1⟩ osAllSucceed 7 0 0
    (by decide) (by decide) (by decide)
  ⟨key.2.1, key.2.2.2.1⟩

/-- C3, as stated, fails: on a monitor scaled by 140 percent, origin
`(45, 45)` and size `1280 x 720` are passed to `CreateWindow` as
`62, 62, 1792, 1007`, while the exact products `45 * 1.4 = 63` and
`720 * 1.4 = 1008` truncated toward zero are `63` and `1008`. -/
theorem CreateAndShow_geometry_one_less_at_140_percent :
    (CreateAndShow Win32Window.new osScale140 OnCreate "CommCoach"
        ⟨45, 45⟩ ⟨1280, 720⟩ nullptr).2.1 =
      [OsCall.RegisterClass, OsCall.MonitorFromPoint 45 45,
       OsCall.CreateWindow "CommCoach" 62 62 1792 1007 nullptr] ∧
    truncTowardZero ((45 : ℚ) * (140 / 100)) = 63 ∧
    truncTowardZero ((720 : ℚ) * (140 / 100)) = 1008 := by
  refine ⟨?_, truncTowardZero_eq_of_bounds _ 63 (by norm_num) (by norm_num) (by norm_num),
    truncTowardZero_eq_of_bounds _ 1008 (by norm_num) (by norm_num) (by norm_num)⟩
  have hcalls := (CreateAndShow_calls Win32Window.new osScale140 OnCreate "CommCoach"
    ⟨45, 45⟩ ⟨1280, 720⟩ nullptr (by decide) (by decide) (by decide) (by decide)).1
  have hd : ∀ monitor, (GetDpiScaleForMonitor osScale140 monitor).1 =
      6305039478318694 / 2 ^ 52 := by
    intro monitor
    rw [GetDpiScaleForMonitor_eq_percent]
    have hp : monitorScalePercent osScale140 monitor = 140 := rfl
    rw [hp, toDouble_intCast 140 (by norm_num)]
    have e : (((140 : Int) : ℚ)) / 100 = 7 / 5 := by norm_num
    rw [e, toDouble_seven_fifths]
  rw [hd] at hcalls
  simp only [Nat.cast_ofNat] at hcalls
  rw [Scale_45_at_140, Scale_1280_at_140, Scale_720_at_140] at hcalls
  exact hcalls

/-- C3, amended.  For every origin `(x, y)` and size `(width, height)` and
every monitor scale factor of `p` percent with `p / 100 ≥ 1`, where `p`, each
logical value and the exact product of each logical value with `p / 100` fit
in a signed 32-bit integer, the four geometry values `CreateAndShow` passes to
`CreateWindow` are computed by `Scale` in `double` arithmetic from the factor
`p / 100.0` (which is also cached in `dpi_scale_`); each is again a signed
32-bit value, and each equals the exact product `x * p / 100` truncated toward
zero, except that it may be one less when the exact product is an integer and
`p / 100` is not a multiple of one quarter. -/
theorem CreateAndShow_geometry_within_double_rounding
    (self : Win32Window) (os : OS) (onCreate : Win32Window → Bool) (title : String)
    (origin : Point) (size : Size) (parent : HWND) (p : Int)
    (hp : monitorScalePercent os
      (os.MonitorFromPoint (origin.x : Int) (origin.y : Int)) = p)
    (hp32 : fitsInt32 p) (hs : (1 : ℚ) ≤ (p : ℚ) / 100)
    (hx : fitsInt32 (origin.x : Int)) (hy : fitsInt32 (origin.y : Int))
    (hw : fitsInt32 (size.width : Int)) (hh : fitsInt32 (size.height : Int))
    (hxs : ((origin.x : Int) : ℚ) * ((p : ℚ) / 100) < 2 ^ 31)
    (hys : ((origin.y : Int) : ℚ) * ((p : ℚ) / 100) < 2 ^ 31)
    (hws : ((size.width : Int) : ℚ) * ((p : ℚ) / 100) < 2 ^ 31)
    (hhs : ((size.height : Int) : ℚ) * ((p : ℚ) / 100) < 2 ^ 31) :
    (CreateAndShow self os onCreate title origin size parent).2.1 =
      (Destroy self).2 ++
        [OsCall.RegisterClass,
         OsCall.MonitorFromPoint (origin.x : Int) (origin.y : Int),
         OsCall.CreateWindow title
           (Scale (origin.x : Int) (toDouble ((p : ℚ) / 100)))
           (Scale (origin.y : Int) (toDouble ((p : ℚ) / 100)))
           (Scale (size.width : Int) (toDouble ((p : ℚ) / 100)))
           (Scale (size.height : Int) (toDouble ((p : ℚ) / 100))) parent] ∧
    (CreateAndShow self os onCreate title origin size parent).1.dpi_scale_ =
      toDouble ((p : ℚ) / 100) ∧
    doubleRoundingAllows (origin.x : Int) p
      (Scale (origin.x : Int) (toDouble ((p : ℚ) / 100))) ∧
    doubleRoundingAllows (origin.y : Int) p
      (Scale (origin.y : Int) (toDouble ((p : ℚ) / 100))) ∧
    doubleRoundingAllows (size.width : Int) p
      (Scale (size.width : Int) (toDouble ((p : ℚ) / 100))) ∧
    doubleRoundingAllows (size.height : Int) p
      (Scale (size.height : Int) (toDouble ((p : ℚ) / 100))) ∧
    fitsInt32 (Scale (origin.x : Int) (toDouble ((p : ℚ) / 100))) ∧
    fitsInt32 (Scale (origin.y : Int) (toDouble ((p : ℚ) / 100))) ∧
    fitsInt32 (Scale (size.width : Int) (toDouble ((p : ℚ) / 100))) ∧
    fitsInt32 (Scale (size.height : Int) (toDouble ((p : ℚ) / 100))) := by
  have hp100 : 100 ≤ p := by
    have h : ((100 : Int) : ℚ) ≤ (p : ℚ) := by
      push_cast
      linarith
    exact_mod_cast h
  have hd : (GetDpiScaleForMonitor os
      (os.MonitorFromPoint (origin.x : Int) (origin.y : Int))).1 =
      toDouble ((p : ℚ) / 100) := by
    rw [GetDpiScaleForMonitor_eq_percent, hp,
      toDouble_intCast p (by unfold fitsInt32 at hp32; rw [abs_lt]; constructor <;> omega)]
  have hcalls := CreateAndShow_calls self os onCreate title origin size parent hx hy hw hh
  rw [hd] at hcalls
  have key : ∀ v : Nat, ((v : Int) : ℚ) * ((p : ℚ) / 100) < 2 ^ 31 →
      doubleRoundingAllows (v : Int) p (Scale (v : Int) (toDouble ((p : ℚ) / 100))) ∧
      fitsInt32 (Scale (v : Int) (toDouble ((p : ℚ) / 100))) := by
    intro v hv
    apply Scale_within_rounding (v : Int) p (Int.natCast_nonneg v) hp100
    have h : (((v : Int) * p : Int) : ℚ) < ((100 * 2 ^ 31 : Int) : ℚ) := by
      push_cast at hv ⊢
      linarith
    exact_mod_cast h
  exact ⟨hcalls.1, hcalls.2, (key _ hxs).1, (key _ hys).1, (key _ hws).1, (key _ hhs).1,
    (key _ hxs).2, (key _ hys).2, (key _ hws).2, (key _ hhs).2⟩

/-- C3 amended, at a concrete input: origin `(10, 21)` and size `1280 x 721`
on a monitor scaled by 150 percent give the physical geometry
`15, 31, 1920, 1081` (`31.5` and `1081.5` are truncated). -/
theorem CreateAndShow_geometry_within_double_rounding_witness :
    (CreateAndShow Win32Window.new osAllSucceed OnCreate "CommCoach"
        ⟨10, 21⟩ ⟨1280, 721⟩ nullptr).2.1 =
      [OsCall.RegisterClass, OsCall.MonitorFromPoint 10 21,
       OsCall.CreateWindow "CommCoach" 15 31 1920 1081 nullptr] := by
  obtain ⟨hcalls, _, ax, ay, aw, ah, _⟩ :=
    CreateAndShow_geometry_within_double_rounding Win32Window.new osAllSucceed
      OnCreate "CommCoach" ⟨10, 21⟩ ⟨1280, 721⟩ nullptr 150 rfl (by decide) (by norm_num)
      (by decide) (by decide) (by decide) (by decide)
      (by norm_num) (by norm_num) (by norm_num) (by norm_num)
  have h25 : (25 : Int) ∣ 150 := by norm_num
  rw [(doubleRoundingAllows_of_dvd _ _ _ h25 ax).trans
      (truncTowardZero_eq_of_bounds _ 15 (by norm_num) (by norm_num) (by norm_num)),
    (doubleRoundingAllows_of_dvd _ _ _ h25 ay).trans
      (truncTowardZero_eq_of_bounds _ 31 (by norm_num) (by norm_num) (by norm_num)),
    (doubleRoundingAllows_of_dvd _ _ _ h25 aw).trans
      (truncTowardZero_eq_of_bounds _ 1920 (by norm_num) (by norm_num) (by norm_num)),
    (doubleRoundingAllows_of_dvd _ _ _ h25 ah).trans
      (truncTowardZero_eq_of_bounds _ 1081 (by norm_num) (by norm_num) (by norm_num))]
    at hcalls
  exact hcalls

/-- C4, as stated, fails: with window-class registration failing (class atom
`0`), window creation succeeding and `OnCreate` returning true,
`CreateAndShow` returns true. -/
theorem CreateAndShow_true_although_registration_fails :
    osRegistrationFails.RegisterClass = 0 ∧
    (CreateAndShow Win32Window.new osRegistrationFails OnCreate "CommCoach"
      ⟨10, 10⟩ ⟨1280, 720⟩ nullptr).2.2 = true := by
  constructor
  · rfl
  · simp [CreateAndShow, Destroy, OnDestroy, Win32Window.new, osRegistrationFails, nullptr,
      OnCreate]

/-- C4, amended.  For every starting state and every combination of outcomes
of the OS calls and of the `OnCreate` hook, `CreateAndShow` returns false
whenever `CreateWindow` yields no handle and whenever `OnCreate` (run on the
shell holding the new handle) returns false, and true in every other case; the
outcome of window-class registration changes neither the return value, nor the
resulting state, nor the calls issued. -/
theorem CreateAndShow_returns_creation_and_OnCreate
    (self : Win32Window) (os : OS) (onCreate : Win32Window → Bool) (title : String)
    (origin : Point) (size : Size) (parent : HWND) (atom : Nat) :
    (CreateAndShow self os onCreate title origin size parent).2.2 =
      (decide (os.CreateWindow ≠ nullptr) &&
        onCreate (CreateAndShow self os onCreate title origin size parent).1) ∧
    (CreateAndShow self os onCreate title origin size parent).1.window_handle_ =
      os.CreateWindow ∧
    CreateAndShow self { os with RegisterClass := atom } onCreate title origin size parent =
      CreateAndShow self os onCreate title origin size parent := by
  refine ⟨?_, ?_, ?_⟩
  · unfold CreateAndShow
    by_cases hc : os.CreateWindow = nullptr <;> simp [hc]
  · unfold CreateAndShow
    by_cases hc : os.CreateWindow = nullptr <;> simp [hc]
  · rfl

/-- C5.  For every shell state, `Destroy` leaves the window handle and the
child content reference empty, and issues the OS destroy call exactly when a
handle was held; a second `Destroy` right after the first leaves the state
unchanged and issues no OS call; and `Destroy` on a shell that holds no handle
(never created) issues no OS call and leaves the handle empty. -/
theorem Destroy_clears_and_is_idempotent (self : Win32Window)
    (quit_on_close : Bool) (child : HWND) (scale : ℚ) :
    (Destroy self).1.window_handle_ = nullptr ∧
    (Destroy self).1.child_content_ = nullptr ∧
    (Destroy self).1.quit_on_close_ = self.quit_on_close_ ∧
    (Destroy self).1.dpi_scale_ = self.dpi_scale_ ∧
    (Destroy self).2 =
      (if self.window_handle_ ≠ nullptr then [OsCall.DestroyWindow self.window_handle_]
       else []) ∧
    Destroy (Destroy self).1 = ((Destroy self).1, []) ∧
    Destroy Win32Window.new = (Win32Window.new, []) ∧
    (Destroy ⟨quit_on_close, nullptr, child, scale⟩).2 = [] ∧
    (Destroy ⟨quit_on_close, nullptr, child, scale⟩).1.window_handle_ = nullptr := by
  obtain ⟨q, w, c, d⟩ := self
  by_cases hw : w = nullptr <;> by_cases hc : c = nullptr <;>
    by_cases hc2 : child = nullptr <;>
    simp [Destroy, OnDestroy, Win32Window.new, hw, hc, hc2]

/-- C6 (code defect).  After a successful `CreateAndShow` that produced
handle `7`, the destroy message for that window is handled and the window is
gone, yet `GetHandle` still returns `7` instead of the empty handle: the
destroy-message handler never clears `window_handle_`. -/
theorem GetHandle_stale_after_WM_DESTROY :
    (CreateAndShow Win32Window.new osAllSucceed OnCreate "CommCoach"
      ⟨10, 10⟩ ⟨1280, 720⟩ nullptr).2.2 = true ∧
    GetHandle (run Win32Window.new
      [Op.createAndShow osAllSucceed OnCreate "CommCoach" ⟨10, 10⟩ ⟨1280, 720⟩ nullptr,
       Op.handleMessage osAllSucceed 7 WM_DESTROY 0 0]) = 7 ∧
    (7 : HWND) ≠ nullptr := by
  refine ⟨?_, ?_, by decide⟩
  · simp [CreateAndShow, Destroy, OnDestroy, Win32Window.new, osAllSucceed, nullptr, OnCreate]
  · simp [run, Op.apply, MessageHandler_state, GetHandle, CreateAndShow, Destroy, OnDestroy,
      Win32Window.new, osAllSucceed, nullptr]

/-- C7.  For every shell state, and for the state reached from it by any
sequence of operations, handling a destroy message returns `0`, leaves the
state unchanged, and issues `PostQuitMessage` if and only if the quit-on-close
flag is true; the flag is the value last passed to `SetQuitOnClose`, or the
value of the starting state when there was no such call, and it is false in a
newly constructed shell. -/
theorem WM_DESTROY_quits_iff_quit_on_close
    (self : Win32Window) (ops : List Op) (os : OS) (hwnd : HWND) (wparam : WPARAM)
    (lparam : LPARAM) :
    MessageHandler (run self ops) os hwnd WM_DESTROY wparam lparam =
      (run self ops,
       if lastQuitOnClose self.quit_on_close_ ops then [OsCall.PostQuitMessage 0] else [],
       0) ∧
    (OsCall.PostQuitMessage 0 ∈
        (MessageHandler (run self ops) os hwnd WM_DESTROY wparam lparam).2.1 ↔
      lastQuitOnClose self.quit_on_close_ ops = true) ∧
    (run self ops).quit_on_close_ = lastQuitOnClose self.quit_on_close_ ops ∧
    Win32Window.new.quit_on_close_ = false := by
  have hflag := run_quit_on_close ops self
  have hmsg : MessageHandler (run self ops) os hwnd WM_DESTROY wparam lparam =
      (run self ops,
       if lastQuitOnClose self.quit_on_close_ ops then [OsCall.PostQuitMessage 0] else [],
       0) := by
    simp [MessageHandler, hflag]
  refine ⟨hmsg, ?_, hflag, rfl⟩
  rw [hmsg]
  cases lastQuitOnClose self.quit_on_close_ ops <;> simp

/-- C8, as stated, fails: for the arguments `app.exe --foo bar` the string set
in the environment is not `--foo bar`. -/
theorem local_command_line_does_not_forward_bare_arguments :
    (my_application_local_command_line (fun _ _ => 0) ["app.exe", "--foo", "bar"] 0).map
      LocalCommandLine.setenv_value ≠ some "--foo bar" := by
  decide

/-- C8, amended.  For every argument list whose first element is the binary
name, `my_application_local_command_line` sets the environment variable
`FLUTTER_ENTRYPOINT` (overwriting) to the text `dart_entrypoint_arguments=`
followed by the remaining arguments, in order, joined by single spaces
(followed by nothing when there are none), and returns what the engine
returns; for `app.exe --foo bar` the value is
`dart_entrypoint_arguments=--foo bar`. -/
theorem local_command_line_forwards_keyed_arguments
    (fl_dart_project_run : List String → Int → Int) (binary : String)
    (remaining : List String) (exit_status : Int) :
    my_application_local_command_line fl_dart_project_run (binary :: remaining) exit_status =
      some { setenv_variable := "FLUTTER_ENTRYPOINT",
             setenv_value := "dart_entrypoint_arguments=" ++ " ".intercalate remaining,
             setenv_overwrite := true,
             result := fl_dart_project_run (binary :: remaining) exit_status } ∧
    (my_application_local_command_line fl_dart_project_run [binary] exit_status).map
      LocalCommandLine.setenv_value = some "dart_entrypoint_arguments=" ∧
    (my_application_local_command_line fl_dart_project_run ["app.exe", "--foo", "bar"]
      exit_status).map LocalCommandLine.setenv_value =
      some "dart_entrypoint_arguments=--foo bar" := by
  refine ⟨?_, ?_, ?_⟩
  · simp [my_application_local_command_line, g_strjoinv_eq_intercalate]
  · simp [my_application_local_command_line, g_strjoinv]
  · simp only [my_application_local_command_line, Option.map_some']
    decide

/-- C9.  For every message kind and every shell state, dispatch through the
registry built by `RegisterMessageHandlers` (look the kind up, fall through to
`DefWindowProc` when absent) gives the same state, the same OS calls and the
same result as `MessageHandler`; the registered kinds are exactly destroy,
DPI-change, size-change, activate and focus-gained; these return `0` and do
not call `DefWindowProc`, and every other kind calls `DefWindowProc` once and
returns its result, leaving the state unchanged. -/
theorem registryDispatch_eq_MessageHandler
    (self : Win32Window) (os : OS) (hwnd : HWND) (message : UINT) (wparam : WPARAM)
    (lparam : LPARAM) :
    registryDispatch self os hwnd message wparam lparam =
      MessageHandler self os hwnd message wparam lparam ∧
    RegisterMessageHandlers.map Prod.fst =
      [WM_DESTROY, WM_DPICHANGED, WM_SIZE, WM_ACTIVATE, WM_SETFOCUS] ∧
    (MessageHandler self os hwnd message wparam lparam).2.2 =
      (if message ∈ [WM_DESTROY, WM_DPICHANGED, WM_SIZE, WM_ACTIVATE, WM_SETFOCUS] then 0
       else os.DefWindowProc hwnd message wparam lparam) ∧
    (OsCall.DefWindowProc hwnd message wparam lparam ∈
        (MessageHandler self os hwnd message wparam lparam).2.1 ↔
      message ∉ [WM_DESTROY, WM_DPICHANGED, WM_SIZE, WM_ACTIVATE, WM_SETFOCUS]) ∧
    (if message ∈ [WM_DESTROY, WM_DPICHANGED, WM_SIZE, WM_ACTIVATE, WM_SETFOCUS] then True
     else MessageHandler self os hwnd message wparam lparam =
       (self, [OsCall.DefWindowProc hwnd message wparam lparam],
        os.DefWindowProc hwnd message wparam lparam)) := by
  by_cases h1 : message = WM_DESTROY
  · subst h1
    refine ⟨rfl, rfl, ?_, ?_, ?_⟩
    · simp [MessageHandler]
    · cases hq : self.quit_on_close_ <;> simp [MessageHandler, hq]
    · simp
  by_cases h2 : message = WM_DPICHANGED
  · subst h2
    refine ⟨rfl, rfl, ?_, ?_, ?_⟩
    · simp [MessageHandler, WM_DPICHANGED, WM_DESTROY]
    · simp [MessageHandler, WM_DPICHANGED, WM_DESTROY]
    · simp
  by_cases h3 : message = WM_SIZE
  · subst h3
    refine ⟨rfl, rfl, ?_, ?_, ?_⟩
    · by_cases hc : self.child_content_ = nullptr <;>
        simp [MessageHandler, WM_SIZE, WM_DPICHANGED, WM_DESTROY, hc]
    · by_cases hc : self.child_content_ = nullptr <;>
        simp [MessageHandler, WM_SIZE, WM_DPICHANGED, WM_DESTROY, hc]
    · simp
  by_cases h4 : message = WM_ACTIVATE
  · subst h4
    refine ⟨rfl, rfl, ?_, ?_, ?_⟩
    · simp [MessageHandler, WM_ACTIVATE, WM_SIZE, WM_DPICHANGED, WM_DESTROY]
    · by_cases hc : self.child_content_ = nullptr <;>
        simp [MessageHandler, WM_ACTIVATE, WM_SIZE, WM_DPICHANGED, WM_DESTROY, hc]
    · simp
  by_cases h5 : message = WM_SETFOCUS
  · subst h5
    refine ⟨rfl, rfl, ?_, ?_, ?_⟩
    · simp [MessageHandler, WM_SETFOCUS, WM_ACTIVATE, WM_SIZE, WM_DPICHANGED, WM_DESTROY]
    · by_cases hc : self.child_content_ = nullptr <;>
        simp [MessageHandler, WM_SETFOCUS, WM_ACTIVATE, WM_SIZE, WM_DPICHANGED, WM_DESTROY, hc]
    · simp
  have hmsg : MessageHandler self os hwnd message wparam lparam =
      (self, [OsCall.DefWindowProc hwnd message wparam lparam],
        os.DefWindowProc hwnd message wparam lparam) := by
    simp [MessageHandler, h1, h2, h3, h4, h5]
  refine ⟨?_, rfl, ?_, ?_, ?_⟩
  · rw [hmsg]
    have e1 : (message == WM_DESTROY) = false := beq_eq_false_iff_ne.mpr h1
    have e2 : (message == WM_DPICHANGED) = false := beq_eq_false_iff_ne.mpr h2
    have e3 : (message == WM_SIZE) = false := beq_eq_false_iff_ne.mpr h3
    have e4 : (message == WM_ACTIVATE) = false := beq_eq_false_iff_ne.mpr h4
    have e5 : (message == WM_SETFOCUS) = false := beq_eq_false_iff_ne.mpr h5
    simp only [registryDispatch, RegisterMessageHandlers, List.lookup, e1, e2, e3, e4, e5]
  · rw [hmsg]
    simp [h1, h2, h3, h4, h5]
  · rw [hmsg]
    simp [h1, h2, h3, h4, h5]
  · simp [h1, h2, h3, h4, h5, hmsg]

/-- C10.  For every shell state and every OS-suggested rectangle `r` (a
rectangle whose width and height are `LONG` values), handling a DPI-change
message moves and resizes the window to exactly `r` (position
`(r.left, r.top)`, width `r.right - r.left`, height `r.bottom - r.top`),
returns `0`, and leaves the shell state unchanged: the cached DPI scale factor,
the window handle, the child content reference and the quit-on-close flag. -/
theorem WM_DPICHANGED_resizes_and_keeps_state
    (self : Win32Window) (os : OS) (hwnd : HWND) (wparam : WPARAM) (lparam : LPARAM)
    (hwidth : fitsInt32 ((os.rectAt lparam).right - (os.rectAt lparam).left))
    (hheight : fitsInt32 ((os.rectAt lparam).bottom - (os.rectAt lparam).top)) :
    (MessageHandler self os hwnd WM_DPICHANGED wparam lparam).2.1 =
      [OsCall.SetWindowPos hwnd (os.rectAt lparam).left (os.rectAt lparam).top
        ((os.rectAt lparam).right - (os.rectAt lparam).left)
        ((os.rectAt lparam).bottom - (os.rectAt lparam).top)
        (SWP_NOZORDER ||| SWP_NOACTIVATE)] ∧
    placedRect (os.rectAt lparam).left (os.rectAt lparam).top
        ((os.rectAt lparam).right - (os.rectAt lparam).left)
        ((os.rectAt lparam).bottom - (os.rectAt lparam).top) = os.rectAt lparam ∧
    (MessageHandler self os hwnd WM_DPICHANGED wparam lparam).2.2 = 0 ∧
    (MessageHandler self os hwnd WM_DPICHANGED wparam lparam).1 = self ∧
    (MessageHandler self os hwnd WM_DPICHANGED wparam lparam).1.dpi_scale_ =
      self.dpi_scale_ ∧
    (MessageHandler self os hwnd WM_DPICHANGED wparam lparam).1.window_handle_ =
      self.window_handle_ ∧
    (MessageHandler self os hwnd WM_DPICHANGED wparam lparam).1.child_content_ =
      self.child_content_ ∧
    (MessageHandler self os hwnd WM_DPICHANGED wparam lparam).1.quit_on_close_ =
      self.quit_on_close_ := by
  have hstate := MessageHandler_state self os hwnd WM_DPICHANGED wparam lparam
  refine ⟨?_, ?_, ?_, hstate, ?_, ?_, ?_, ?_⟩
  · simp [MessageHandler, WM_DPICHANGED, WM_DESTROY, toInt32_of_fits _ hwidth,
      toInt32_of_fits _ hheight]
  · simp [placedRect]
  · simp [MessageHandler, WM_DPICHANGED, WM_DESTROY]
  all_goals rw [hstate]

/-- C10, at a concrete input: the OS suggests the rectangle
`(100, 50) - (1060, 770)` for window `7`, which is moved to `(100, 50)` with
width `960` and height `720`. -/
theorem WM_DPICHANGED_resizes_and_keeps_state_witness :
    (MessageHandler ⟨true, 7, 9, 1⟩ osAllSucceed 7 WM_DPICHANGED 0 0).2.1 =
      [OsCall.SetWindowPos 7 100 50 960 720 (SWP_NOZORDER ||| SWP_NOACTIVATE)] ∧
    (MessageHandler ⟨true, 7, 9, 1⟩ osAllSucceed 7 WM_DPICHANGED 0 0).1 = ⟨true, 7, 9, 1⟩ :=
  have key := WM_DPICHANGED_resizes_and_keeps_state ⟨true, 7, 9, 1⟩ osAllSucceed 7 0 0
    (by decide) (by decide)
  ⟨key.1, key.2.2.2.1⟩

end CommCoach
